import Mathlib

/-!
Verification of the conversational-memory core of HealthAgent
(`Utils/ChatAgent.py`, `Utils/MemoryManager.py`) against its
natural-language specification.

Strings are modelled as `List Char` (`Str`); Python substring tests
(`needle in hay`) as `containsSub`; SQLite tables as Lean lists of rows in
insertion order, collected into a `DB` record; `CURRENT_TIMESTAMP` /
`datetime.now().timestamp()` as an explicit `Nat` clock argument.  The
language-model call inside `generate_response` is opaque in the source and
is passed in as an `Option Str` (`none` = the call raised or returned a
falsy response object).
-/

namespace HealthAgent

/-- Text, as a list of characters (Python `str`; `len` is `List.length`). -/
abbrev Str := List Char

/-- Whether `pat` is a prefix of `s` (character-wise). -/
def prefixCheck : Str → Str → Bool
  | [], _ => true
  | _ :: _, [] => false
  | c :: cs, d :: ds => c == d && prefixCheck cs ds

/-- Python's `needle in hay`: contiguous-substring containment. -/
def containsSub (needle : Str) : Str → Bool
  | [] => prefixCheck needle []
  | c :: rest => prefixCheck needle (c :: rest) || containsSub needle rest

/-- Python `str.lower` (ASCII case, enough for the keyword sets involved). -/
def lowerStr (s : Str) : Str := s.map Char.toLower

/-- Python `l[-n:]`: the last `n` elements. -/
def lastN (n : Nat) (l : List α) : List α := l.drop (l.length - n)

/-- Python `' '.join(pieces)`. -/
def joinSp : List Str → Str
  | [] => []
  | [x] => x
  | x :: y :: ys => x ++ ' ' :: joinSp (y :: ys)

/-- `ChatAgent.detect_plan_update_advanced`: keywords whose presence in the
user message marks a plan-modification request. -/
def update_request_keywords : List Str :=
  ["change", "modify", "update", "different", "alternative", "new plan",
   "plan b", "plan c", "revise", "adjust", "replace", "switch",
   "تغییر", "تبدیل", "جدید", "متفاوت", "دیگه", "عوض"].map String.data

/-- `ChatAgent.detect_plan_update_advanced`: keywords indicating the
response contains a plan. -/
def plan_response_keywords : List Str :=
  ["updated plan", "new plan", "modified plan", "here's your plan",
   "complete plan", "revised plan", "alternative plan", "full plan",
   "workout plan", "meal plan", "nutrition plan", "fitness plan"].map String.data

/-- `ChatAgent.detect_plan_update_advanced`: structural-format markers. -/
def structure_markers : List Str :=
  ["##", "**", "1.", "2.", "Week", "Day"].map String.data

/-- One entry of the assembled context's `recent_messages` list
(`MemoryManager._format_memory_messages` output: role + content). -/
structure RecentMsg where
  role : Str
  content : Str
deriving DecidableEq

/-- `ChatAgent.detect_plan_update_advanced` (lines 294-345).  The
`conversation_context` dict is consulted only for its `recent_messages`
key, so that list is the context parameter here. -/
def detect_plan_update_advanced (user_message ai_response : Str)
    (recent_messages : List RecentMsg) : Bool :=
  let user_msg_lower := lowerStr user_message
  let user_wants_update := update_request_keywords.any fun k => containsSub k user_msg_lower
  let ai_response_lower := lowerStr ai_response
  let response_contains_plan := plan_response_keywords.any fun k => containsSub k ai_response_lower
  let is_substantial := decide (ai_response.length > 800)
  let has_structure := structure_markers.any fun m => containsSub m ai_response
  let recent_context_about_plans :=
    if recent_messages.isEmpty then false
    else
      let recent_text := joinSp ((lastN 4 recent_messages).map RecentMsg.content)
      update_request_keywords.any fun k => containsSub k (lowerStr recent_text)
  (user_wants_update && response_contains_plan && is_substantial && has_structure) ||
    (recent_context_about_plans && response_contains_plan && is_substantial)

/-- Spec §4.5 clause 1: the user message contains an update-request keyword. -/
def userWantsUpdate (m : Str) : Bool :=
  update_request_keywords.any fun k => containsSub k (lowerStr m)

/-- Spec §4.5 clause 2: the response contains a plan-marker keyword. -/
def responseHasPlanMarkers (r : Str) : Bool :=
  plan_response_keywords.any fun k => containsSub k (lowerStr r)

/-- Spec §4.5 clause 3 (stricter variant): the response exceeds 800 characters. -/
def isSubstantialResp (r : Str) : Bool := decide (r.length > 800)

/-- Spec §4.5 clause 4: the response contains a structural marker. -/
def hasStructureMarker (r : Str) : Bool :=
  structure_markers.any fun m => containsSub m r

/-- Spec §4.5 clause 5: the text of the last few (four) recent context
messages contains an update-request keyword. -/
def recentContextAboutPlans (ms : List RecentMsg) : Bool :=
  update_request_keywords.any fun k =>
    containsSub k (lowerStr (joinSp ((lastN 4 ms).map RecentMsg.content)))

/-! ### Data model: the SQLite tables of `Main.init_db`, as lists of rows -/

/-- A row of `conversation_sessions`. -/
structure SessionRow where
  user_id : Nat
  agent_type : Str
  session_id : Str
  session_name : Str
  status : Str
  last_activity : Nat
  message_count : Nat
deriving DecidableEq

/-- A row of `conversations`. -/
structure ConvRow where
  id : Nat
  session_id : Str
  user_id : Nat
  agent_type : Str
  message_type : Str
  content : Str
  message_order : Nat
  timestamp : Nat
  contains_plan_update : Bool
deriving DecidableEq

/-- A row of `context_references`.  `confidence_score` is stored in tenths
(8 for the source's 0.8, 6 for 0.6) to keep the model over `Nat`. -/
structure RefRow where
  conversation_id : Option Nat
  reference_type : Str
  reference_id : Option Nat
  reference_text : Str
  confidence_score : Nat
  created_at : Nat
deriving DecidableEq

/-- A row of `memory_summaries`. -/
structure SummaryRow where
  session_id : Str
  user_id : Nat
  agent_type : Str
  summary_type : Str
  summary_content : Str
  is_active : Bool
  created_at : Nat
deriving DecidableEq

/-- A row of `updated_plans` (the autoincrement id column is never read back
by the code under verification and is omitted). -/
structure PlanRow where
  user_id : Nat
  agent_type : Str
  original_plan_id : Option Nat
  updated_plan : Str
  modification_summary : Str
  conversation_id : Option Nat
  version_number : Nat
  is_current : Bool
  created_at : Nat
deriving DecidableEq

/-- A row of the externally-owned `agent_history` table (base plans). -/
structure HistoryRow where
  id : Nat
  user_id : Nat
  agent_type : Str
  recommendation : Str
  created_at : Nat
deriving DecidableEq

/-- The database state.  `next_conv_id` models the `conversations` table's
AUTOINCREMENT primary key. -/
structure DB where
  sessions : List SessionRow
  conversations : List ConvRow
  context_references : List RefRow
  memory_summaries : List SummaryRow
  updated_plans : List PlanRow
  agent_history : List HistoryRow
  next_conv_id : Nat
deriving DecidableEq

/-- The empty database, as `Main.init_db` leaves it. -/
def emptyDB : DB :=
  { sessions := [], conversations := [], context_references := [],
    memory_summaries := [], updated_plans := [], agent_history := [],
    next_conv_id := 1 }

/-- `SELECT ... ORDER BY f DESC LIMIT 1`: the row maximising `f`; among
ties the later (more recently inserted) row is returned. -/
def selectLatestBy (f : α → Nat) : List α → Option α
  | [] => none
  | x :: xs =>
    match selectLatestBy f xs with
    | none => some x
    | some y => if f y < f x then some x else some y

def statusActive : Str := "active".data

def statusCleared : Str := "cleared".data

/-- The `WHERE user_id = ? AND agent_type = ? AND status = 'active'`
predicate of `MemoryManager.get_session_id`. -/
def isActiveFor (u : Nat) (a : Str) (s : SessionRow) : Bool :=
  decide (s.user_id = u ∧ s.agent_type = a ∧ s.status = statusActive)

/-- Decimal rendering of a `Nat` (Python `f"{n}"`). -/
def natStr (n : Nat) : Str := (Nat.repr n).data

/-- `f"{agent_type}_{user_id}_{int(datetime.now().timestamp())}"`. -/
def mkSessionId (a : Str) (u t : Nat) : Str :=
  a ++ '_' :: natStr u ++ '_' :: natStr t

/-- `f"fallback_{agent_type}_{user_id}"`, returned from `get_session_id`'s
`except` branch. -/
def fallbackSessionId (a : Str) (u : Nat) : Str :=
  "fallback_".data ++ a ++ '_' :: natStr u

/-- The row inserted by `get_session_id` when no active session exists. -/
def newSessionRow (u : Nat) (a : Str) (t : Nat) : SessionRow :=
  { user_id := u, agent_type := a, session_id := mkSessionId a u t,
    session_name := a ++ " Chat Session".data, status := statusActive,
    last_activity := t, message_count := 0 }

/-- `UPDATE conversation_sessions SET last_activity = CURRENT_TIMESTAMP
WHERE session_id = ?`. -/
def refreshActivity (sid : Str) (t : Nat) (s : SessionRow) : SessionRow :=
  if s.session_id = sid then { s with last_activity := t } else s

/-- The active sessions of a (user, role) pair. -/
def activeSessionsFor (db : DB) (u : Nat) (a : Str) : List SessionRow :=
  db.sessions.filter (isActiveFor u a)

/-- The active session `get_session_id` reuses, when one exists. -/
def lookupActive (db : DB) (u : Nat) (a : Str) : Option SessionRow :=
  selectLatestBy (fun s => s.last_activity) (activeSessionsFor db u a)

/-- `MemoryManager.get_session_id` (lines 42-83).  `storageFails` models the
`except` branch for an arbitrary storage exception: it is swallowed and a
fallback id is returned with no state change.  `conversation_sessions.session_id`
is declared `UNIQUE` by `Main.init_db`, so when the composed id already
belongs to a stored session the `INSERT` raises `IntegrityError`, which the
same `except` branch catches: the fallback id is returned and the
uncommitted insert is discarded. -/
def get_session_id (db : DB) (u : Nat) (a : Str) (t : Nat)
    (storageFails : Bool := false) : Str × DB :=
  if storageFails then (fallbackSessionId a u, db)
  else
    match lookupActive db u a with
    | some s =>
        (s.session_id,
         { db with sessions := db.sessions.map (refreshActivity s.session_id t) })
    | none =>
        if db.sessions.any fun s => decide (s.session_id = mkSessionId a u t) then
          (fallbackSessionId a u, db)
        else
          (mkSessionId a u t,
           { db with sessions := db.sessions ++ [newSessionRow u a t] })

/-! ### Memory assembly (`MemoryManager`) -/

/-- Insertion step of the chronological sort on `message_order`. -/
def insertAsc (r : ConvRow) : List ConvRow → List ConvRow
  | [] => [r]
  | x :: xs =>
    if x.message_order ≤ r.message_order then x :: insertAsc r xs
    else r :: x :: xs

/-- Sort conversation rows ascending by `message_order`. -/
def sortByOrder : List ConvRow → List ConvRow
  | [] => []
  | x :: xs => insertAsc x (sortByOrder xs)

/-- `MemoryManager._get_recent_messages` / the history query of
`get_conversation_history`: `ORDER BY message_order DESC LIMIT limit*2`,
then reversed to chronological order. -/
def recentWindow (db : DB) (sid : Str) (limit : Nat) : List ConvRow :=
  lastN (limit * 2)
    (sortByOrder (db.conversations.filter fun c => decide (c.session_id = sid)))

/-- `_format_memory_messages` after `get_buffer_window_memory` loads the
rows: a `human` row becomes role `user`, anything else role `assistant`. -/
def msgRole (message_type : Str) : Str :=
  if message_type = "human".data then "user".data else "assistant".data

/-- The active `session_summary` read by `_get_or_create_session_summary`,
or empty.  (Summary creation for sessions past the 20-message threshold
goes through the external language-model service and is outside this
model; no claim depends on it.) -/
def sessionSummary (db : DB) (sid : Str) : Str :=
  match selectLatestBy (fun r => r.created_at)
      (db.memory_summaries.filter fun r =>
        decide (r.session_id = sid ∧ r.summary_type = "session_summary".data
          ∧ r.is_active = true)) with
  | some r => r.summary_content
  | none => []

/-- Insertion step of the sort on `created_at` for references. -/
def insertRefAsc (r : RefRow) : List RefRow → List RefRow
  | [] => [r]
  | x :: xs =>
    if x.created_at ≤ r.created_at then x :: insertRefAsc r xs
    else r :: x :: xs

/-- Sort reference rows ascending by `created_at`. -/
def sortRefsAsc : List RefRow → List RefRow
  | [] => []
  | x :: xs => insertRefAsc x (sortRefsAsc xs)

/-- `MemoryManager._get_recent_references`: the session's references
(those joined to a conversation row of the session), latest 5, most recent
first. -/
def recentReferences (db : DB) (sid : Str) : List RefRow :=
  (lastN 5 (sortRefsAsc (db.context_references.filter fun r =>
      decide (0 < (db.conversations.filter fun c =>
        decide (c.session_id = sid ∧ some c.id = r.conversation_id)).length)))).reverse

/-- The assembled context (`MemoryManager.get_conversation_context`'s
returned dict). -/
structure ConvContext where
  session_id : Str
  recent_messages : List RecentMsg
  summary : Str
  references : List RefRow
  message_count : Nat
deriving DecidableEq

/-- `SELECT message_count FROM conversation_sessions WHERE session_id = ?`,
first matching row. -/
def selectSession (db : DB) (sid : Str) : Option SessionRow :=
  db.sessions.find? fun s => decide (s.session_id = sid)

/-- `MemoryManager.get_conversation_context` (lines 353-389).  The nested
`get_buffer_window_memory` and `get_summary_memory` calls each re-run
`get_session_id`, so three session look-ups happen per assembly. -/
def get_conversation_context (db : DB) (u : Nat) (a : Str) (t : Nat) :
    ConvContext × DB :=
  let p1 := get_session_id db u a t
  let sid := p1.1
  let p2 := get_session_id p1.2 u a t
  let p3 := get_session_id p2.2 u a t
  let db3 := p3.2
  let recent := (recentWindow db3 sid 10).map fun c =>
    { role := msgRole c.message_type, content := c.content }
  let mcount := match selectSession db3 sid with
    | some s => s.message_count
    | none => 0
  ({ session_id := sid, recent_messages := recent,
     summary := sessionSummary db3 sid, references := recentReferences db3 sid,
     message_count := mcount }, db3)

/-! ### Plan version store (`ChatAgent`) -/

/-- The `WHERE user_id = ? AND agent_type = ?` predicate on plan rows. -/
def planFor (u : Nat) (a : Str) (p : PlanRow) : Bool :=
  decide (p.user_id = u ∧ p.agent_type = a)

/-- `UPDATE updated_plans SET is_current = FALSE WHERE user_id = ? AND
agent_type = ?`, one row. -/
def unsetCurrent (u : Nat) (a : Str) (p : PlanRow) : PlanRow :=
  if planFor u a p then { p with is_current := false } else p

/-- `SELECT COALESCE(MAX(version_number), 0) FROM updated_plans WHERE
user_id = ? AND agent_type = ?`. -/
def maxVersionFor (plans : List PlanRow) (u : Nat) (a : Str) : Nat :=
  List.foldl (fun m p => Nat.max m p.version_number) 0 (plans.filter (planFor u a))

/-- The base-plan rows of `agent_history` for a (user, role) pair. -/
def baseFor (db : DB) (u : Nat) (a : Str) : List HistoryRow :=
  db.agent_history.filter fun h => decide (h.user_id = u ∧ h.agent_type = a)

/-- `SELECT id FROM agent_history WHERE ... ORDER BY created_at DESC LIMIT 1`. -/
def latestHistoryId (db : DB) (u : Nat) (a : Str) : Option Nat :=
  (selectLatestBy (fun h => h.created_at) (baseFor db u a)).map fun h => h.id

/-- The plan rows currently flagged `is_current` for a (user, role) pair. -/
def currentPlansFor (db : DB) (u : Nat) (a : Str) : List PlanRow :=
  db.updated_plans.filter fun p => planFor u a p && p.is_current

/-- `ChatAgent.save_updated_plan_with_versioning` (lines 347-396): unset
every current flag for the pair, compute max version + 1, insert the new
row as current. -/
def save_updated_plan_with_versioning (db : DB) (u : Nat) (a : Str)
    (updated_plan modification_summary : Str) (conversation_id : Option Nat)
    (t : Nat) : Bool × DB :=
  let cleared := db.updated_plans.map (unsetCurrent u a)
  let next_version := maxVersionFor cleared u a + 1
  let original_plan_id := latestHistoryId db u a
  (true,
   { db with updated_plans := cleared ++
      [{ user_id := u, agent_type := a, original_plan_id := original_plan_id,
         updated_plan := updated_plan,
         modification_summary := modification_summary,
         conversation_id := conversation_id, version_number := next_version,
         is_current := true, created_at := t }] })

/-- The result dict of `ChatAgent.get_current_plan_context`. -/
structure PlanContext where
  current_plan : Option Str
  is_updated : Bool
  last_modification : Option Str
  version : Option Nat
  timestamp : Option Nat
  message : Option Str
deriving DecidableEq

/-- The `'No previous plan found...'` sentinel message. -/
def noPlanMessage : Str :=
  "No previous plan found. Ready to create your first personalized plan!".data

/-- `ChatAgent.get_current_plan_context` (lines 126-179): the current
updated plan if one exists, else the latest base plan (version 1, not
updated), else the no-plan sentinel. -/
def get_current_plan_context (db : DB) (u : Nat) (a : Str) : PlanContext :=
  match selectLatestBy (fun p => p.created_at) (currentPlansFor db u a) with
  | some p =>
      { current_plan := some p.updated_plan, is_updated := true,
        last_modification := some p.modification_summary,
        version := some p.version_number, timestamp := some p.created_at,
        message := none }
  | none =>
    match selectLatestBy (fun h => h.created_at) (baseFor db u a) with
    | some h =>
        { current_plan := some h.recommendation, is_updated := false,
          last_modification := none, version := some 1,
          timestamp := some h.created_at, message := none }
    | none =>
        { current_plan := none, is_updated := false, last_modification := none,
          version := none, timestamp := none, message := some noPlanMessage }

/-! ### Turn persistence (`MemoryManager.add_message`) -/

/-- `MemoryManager._extract_context_references`: plan-related terms. -/
def mm_plan_keywords : List Str :=
  ["plan", "برنامه", "program", "routine", "schedule"].map String.data

/-- `MemoryManager._extract_context_references`: anaphoric terms. -/
def mm_reference_keywords : List Str :=
  ["that", "this", "it", "اون", "این", "همون"].map String.data

/-- The plan reference (confidence 0.8) `_extract_context_references`
records when the message mentions a plan and a base plan exists. -/
def planRefRows (db : DB) (conversation_id : Nat) (message : Str)
    (u : Nat) (a : Str) (t : Nat) : List RefRow :=
  if mm_plan_keywords.any fun k => containsSub k (lowerStr message) then
    match latestHistoryId db u a with
    | some plan_id =>
        [{ conversation_id := some conversation_id,
           reference_type := "plan".data, reference_id := some plan_id,
           reference_text := message.take 200, confidence_score := 8,
           created_at := t }]
    | none => []
  else []

/-- The previous-message reference (confidence 0.6)
`_extract_context_references` records for an anaphoric term. -/
def msgRefRows (conversation_id : Nat) (message : Str) (t : Nat) : List RefRow :=
  if mm_reference_keywords.any fun k => containsSub k (lowerStr message) then
    [{ conversation_id := some conversation_id,
       reference_type := "previous_message".data, reference_id := none,
       reference_text := message.take 200, confidence_score := 6,
       created_at := t }]
  else []

/-- `MemoryManager._extract_context_references` (lines 308-351): append the
plan reference, then the previous-message reference, when their keyword
tests fire. -/
def extract_context_references (db : DB) (conversation_id : Nat)
    (message : Str) (u : Nat) (a : Str) (t : Nat) : DB :=
  { db with context_references := db.context_references
      ++ planRefRows db conversation_id message u a t
      ++ msgRefRows conversation_id message t }

/-- `SELECT COALESCE(MAX(message_order), 0) FROM conversations WHERE
session_id = ?`. -/
def maxOrderFor (convs : List ConvRow) (sid : Str) : Nat :=
  List.foldl (fun m c => Nat.max m c.message_order) 0
    (convs.filter fun c => decide (c.session_id = sid))

/-- `UPDATE conversation_sessions SET message_count = message_count + 2,
last_activity = CURRENT_TIMESTAMP WHERE session_id = ?`. -/
def bumpSession (sid : Str) (t : Nat) (s : SessionRow) : SessionRow :=
  if s.session_id = sid then
    { s with message_count := s.message_count + 2, last_activity := t }
  else s

/-- `MemoryManager.add_message` (lines 253-306): append the human turn at
max order + 1 and the assistant turn at max order + 2, bump the session
counters, extract context references from the human message. -/
def add_message (db : DB) (u : Nat) (a : Str)
    (human_message ai_response : Str) (contains_plan_update : Bool)
    (t : Nat) : Bool × DB :=
  let p := get_session_id db u a t
  let sid := p.1
  let db1 := p.2
  let next_order := maxOrderFor db1.conversations sid + 1
  let hrow : ConvRow :=
    { id := db1.next_conv_id, session_id := sid, user_id := u, agent_type := a,
      message_type := "human".data, content := human_message,
      message_order := next_order, timestamp := t, contains_plan_update := false }
  let arow : ConvRow :=
    { id := db1.next_conv_id + 1, session_id := sid, user_id := u,
      agent_type := a, message_type := "assistant".data, content := ai_response,
      message_order := next_order + 1, timestamp := t,
      contains_plan_update := contains_plan_update }
  let db2 := { db1 with
    conversations := db1.conversations ++ [hrow, arow],
    sessions := db1.sessions.map (bumpSession sid t),
    next_conv_id := db1.next_conv_id + 2 }
  (true, extract_context_references db2 hrow.id human_message u a t)

/-! ### Clearing (`MemoryManager.clear_session`, `ChatAgent.clear_conversation`) -/

/-- `UPDATE conversation_sessions SET status = 'cleared' WHERE session_id = ?`,
one row. -/
def markCleared (sid : Str) (s : SessionRow) : SessionRow :=
  if s.session_id = sid then { s with status := statusCleared } else s

/-- `MemoryManager.clear_session` (lines 425-451): mark the pair's session
cleared and delete its conversations and summaries. -/
def clear_session (db : DB) (u : Nat) (a : Str) (t : Nat) : Bool × DB :=
  let p := get_session_id db u a t
  let sid := p.1
  let db1 := p.2
  (true,
   { db1 with
     sessions := db1.sessions.map (markCleared sid),
     conversations := db1.conversations.filter fun c => !decide (c.session_id = sid),
     memory_summaries := db1.memory_summaries.filter fun m => !decide (m.session_id = sid) })

/-- `ChatAgent.clear_conversation` (lines 524-548): clear the session and
unset every current plan flag for the pair. -/
def clear_conversation (db : DB) (u : Nat) (a : Str) (t : Nat) : Bool × DB :=
  let p := clear_session db u a t
  if p.1 then
    (true, { p.2 with updated_plans := p.2.updated_plans.map (unsetCurrent u a) })
  else p

/-! ### History (`ChatAgent.get_conversation_history`) -/

/-- One element of `get_conversation_history`'s result list. -/
structure HistEntry where
  human : Str
  ai : Str
  isUpdate : Bool
  timestamp : Nat
deriving DecidableEq

/-- The pairing loop of `get_conversation_history` (lines 501-514): a human
row becomes the pending half-pair, an assistant row completes a pending
pair, an assistant row with no pending human is skipped. -/
def pairLoop : List ConvRow → Option (Str × Nat) → List HistEntry
  | [], _ => []
  | r :: rest, cur =>
    if r.message_type = "human".data then
      pairLoop rest (some (r.content, r.timestamp))
    else if r.message_type = "assistant".data then
      match cur with
      | some pending =>
          { human := pending.1, ai := r.content,
            isUpdate := r.contains_plan_update, timestamp := pending.2 }
            :: pairLoop rest none
      | none => pairLoop rest none
    else pairLoop rest cur

/-- `ChatAgent.get_conversation_history` (lines 482-522): assemble context
(for the session id), fetch the last `limit * 2` rows chronologically, and
pair them up. -/
def get_conversation_history (db : DB) (u : Nat) (a : Str) (limit : Nat)
    (t : Nat) : List HistEntry × DB :=
  let p := get_conversation_context db u a t
  (pairLoop (recentWindow p.2 p.1.session_id limit) none, p.2)

/-! ### Response orchestrator (`ChatAgent.generate_response`) -/

/-- The recognized agent roles. -/
def valid_agents : List Str :=
  ["HealthSummary", "FitnessTrainer", "Nutritionist", "HealthAdvisor"].map String.data

/-- Python `str.strip` whitespace class (the characters that occur here). -/
def isSpaceChar (c : Char) : Bool :=
  c == ' ' || c == '\t' || c == '\n' || c == '\r'

/-- Python `str.strip`. -/
def stripStr (s : Str) : Str :=
  ((s.dropWhile isSpaceChar).reverse.dropWhile isSpaceChar).reverse

/-- The success payload of `generate_response`. -/
structure GenOk where
  response : Str
  contains_plan_update : Bool
  message_count : Nat
  session_id : Str
deriving DecidableEq

/-- The result of `generate_response`: a success dict or an error dict. -/
inductive GenResult where
  | ok (r : GenOk)
  | err (msg : Str)
deriving DecidableEq

/-- Whether a `generate_response` result is a failure result. -/
def GenResult.isErr : GenResult → Bool
  | .ok _ => false
  | .err _ => true

/-- `SELECT id FROM conversations WHERE session_id = ? AND message_type =
'assistant' ORDER BY message_order DESC LIMIT 1`. -/
def lastAssistantId (convs : List ConvRow) (sid : Str) : Option Nat :=
  (selectLatestBy (fun c => c.message_order) (convs.filter fun c =>
    decide (c.session_id = sid ∧ c.message_type = "assistant".data))).map
    fun c => c.id

/-- `ChatAgent.generate_response` (lines 398-480).  `llm` is the opaque
language-model call's outcome: `none` when it raises, times out or returns
a falsy response object, `some content` otherwise.  Validation rejects a
falsy user id, agent type or stripped message, then an unrecognized agent;
an empty model response is a failure after context assembly; otherwise the
turn pair is persisted and, when the detector fires and an assistant row is
found, a plan revision is saved. -/
def generate_response (db : DB) (u : Nat) (a : Str) (message : Str)
    (llm : Option Str) (t : Nat) : GenResult × DB :=
  if u = 0 ∨ a = [] ∨ stripStr message = [] then
    (.err "Invalid input parameters".data, db)
  else if a ∈ valid_agents then
    let pc := get_conversation_context db u a t
    let ctx := pc.1
    -- create_enhanced_system_prompt re-assembles the context for the prompt
    let pp := get_conversation_context pc.2 u a t
    let db2 := pp.2
    match llm with
    | none => (.err "Enhanced ChatManager Error".data, db2)
    | some content =>
      if content = [] then (.err "Empty response from LLM".data, db2)
      else
        let ai_response := stripStr content
        let cpu := detect_plan_update_advanced message ai_response ctx.recent_messages
        let pm := add_message db2 u a message ai_response cpu t
        let db3 := pm.2
        let okResult : GenOk :=
          { response := ai_response, contains_plan_update := cpu,
            message_count := ctx.message_count, session_id := ctx.session_id }
        if cpu then
          let ps := get_session_id db3 u a t
          match lastAssistantId ps.2.conversations ps.1 with
          | some cid =>
              let modification_summary :=
                "User requested: ".data ++ message.take 200 ++ "...".data
              (.ok okResult,
               (save_updated_plan_with_versioning ps.2 u a ai_response
                  modification_summary (some cid) t).2)
          | none => (.ok okResult, ps.2)
        else (.ok okResult, db3)
  else (.err "Invalid agent type".data, db)

/-! ### Observables and operation sequences used by the properties -/

/-- The stored version numbers of a (user, role) pair, in insertion order. -/
def versionsFor (db : DB) (u : Nat) (a : Str) : List Nat :=
  (db.updated_plans.filter (planFor u a)).map fun p => p.version_number

/-- The stored `message_order` numbers of a session, in insertion order. -/
def ordersFor (convs : List ConvRow) (sid : Str) : List Nat :=
  (convs.filter fun c => decide (c.session_id = sid)).map fun c => c.message_order

/-- A completed plan-affecting operation: a successful `saveRevision`
(`save_updated_plan_with_versioning`) or a `clearConversation`. -/
inductive PlanOp where
  | save (plan summary : Str) (cid : Option Nat) (t : Nat)
  | clear (t : Nat)

/-- Run one plan-affecting operation for a (user, role) pair. -/
def applyPlanOp (u : Nat) (a : Str) (db : DB) : PlanOp → DB
  | .save plan summary cid t =>
      (save_updated_plan_with_versioning db u a plan summary cid t).2
  | .clear t => (clear_conversation db u a t).2

/-- Run a sequence of plan-affecting operations. -/
def applyPlanOps (u : Nat) (a : Str) (db : DB) (ops : List PlanOp) : DB :=
  ops.foldl (applyPlanOp u a) db

/-- A list of complete (human, assistant) exchanges flattened into the row
sequence the history window would hold. -/
def interleavePairs : List (ConvRow × ConvRow) → List ConvRow
  | [] => []
  | pr :: rest => pr.1 :: pr.2 :: interleavePairs rest

/-! ### Concrete sample data for witnesses and counterexamples -/

/-- The fitness-trainer agent role. -/
def fitnessAgent : Str := "FitnessTrainer".data

/-- Scenario B's user message. -/
def weatherMsg : Str := "How's the weather today?".data

/-- A structured, plan-marked response longer than 800 characters. -/
def bigPlanResponse : Str :=
  "Here is your updated plan 1. ".data ++ List.replicate 800 'a'

/-- A recent-context window whose text contains an update-request keyword. -/
def changeContext : List RecentMsg :=
  [{ role := "user".data, content := "please change my plan".data }]

/-- A sample plan text. -/
def samplePlan : Str := "New workout plan".data

/-- A sample plan-modification summary. -/
def sampleSummary : Str := "User requested a change".data

/-- A sample human conversation row. -/
def wHumanRow : ConvRow :=
  { id := 1, session_id := mkSessionId fitnessAgent 1 3, user_id := 1,
    agent_type := fitnessAgent, message_type := "human".data,
    content := "hi".data, message_order := 1, timestamp := 3,
    contains_plan_update := false }

/-- A sample assistant conversation row. -/
def wAsstRow : ConvRow :=
  { id := 2, session_id := mkSessionId fitnessAgent 1 3, user_id := 1,
    agent_type := fitnessAgent, message_type := "assistant".data,
    content := "hello".data, message_order := 2, timestamp := 3,
    contains_plan_update := false }

/-- The sample state's active session row. -/
def wSession : SessionRow :=
  { user_id := 1, agent_type := fitnessAgent,
    session_id := mkSessionId fitnessAgent 1 3,
    session_name := fitnessAgent ++ " Chat Session".data,
    status := statusActive, last_activity := 3, message_count := 2 }

/-- The sample state's current plan revision. -/
def wPlanRow : PlanRow :=
  { user_id := 1, agent_type := fitnessAgent, original_plan_id := some 1,
    updated_plan := samplePlan, modification_summary := sampleSummary,
    conversation_id := some 2, version_number := 1, is_current := true,
    created_at := 4 }

/-- The sample state's base plan. -/
def wBaseRow : HistoryRow :=
  { id := 1, user_id := 1, agent_type := fitnessAgent,
    recommendation := "base plan".data, created_at := 2 }

/-- A sample reachable state: one active session with one exchange, one
current plan revision, one base plan. -/
def sampleDB : DB :=
  { sessions := [wSession],
    conversations := [wHumanRow, wAsstRow],
    context_references := [],
    memory_summaries := [],
    updated_plans := [wPlanRow],
    agent_history := [wBaseRow],
    next_conv_id := 3 }

end HealthAgent

namespace HealthAgent

theorem recentContextAboutPlans_nil : recentContextAboutPlans [] = false := by decide

theorem detect_eq_rule (u r : Str) (ms : List RecentMsg) :
    detect_plan_update_advanced u r ms =
      ((userWantsUpdate u && responseHasPlanMarkers r && isSubstantialResp r
          && hasStructureMarker r)
        || (recentContextAboutPlans ms && responseHasPlanMarkers r && isSubstantialResp r)) := by
  cases ms with
  | nil =>
      simp only [detect_plan_update_advanced, recentContextAboutPlans_nil,
        List.isEmpty_nil, if_true, userWantsUpdate, responseHasPlanMarkers,
        isSubstantialResp, hasStructureMarker]
  | cons m ms => rfl

/-! ### Helper lemmas: `selectLatestBy`, list facts -/

theorem selectLatestBy_mem {f : α → Nat} {l : List α} {x : α}
    (h : selectLatestBy f l = some x) : x ∈ l := by
  induction l with
  | nil => simp [selectLatestBy] at h
  | cons y ys ih =>
    rw [selectLatestBy] at h
    cases hy : selectLatestBy f ys with
    | none => simp only [hy] at h; cases h; exact List.mem_cons_self _ _
    | some z =>
      simp only [hy] at h
      by_cases hc : f z < f y
      · simp only [if_pos hc] at h; cases h; exact List.mem_cons_self _ _
      · simp only [if_neg hc] at h; cases h; exact List.mem_cons_of_mem _ (ih hy)

theorem selectLatestBy_nil (f : α → Nat) : selectLatestBy f [] = none := rfl

theorem eq_of_mem_of_length_le_one {l : List α} {x y : α}
    (h : l.length ≤ 1) (hx : x ∈ l) (hy : y ∈ l) : x = y := by
  match l with
  | [] => cases hx
  | [z] =>
    rw [List.mem_singleton] at hx hy
    rw [hx, hy]
  | z :: w :: l => simp at h

/-! ### Helper lemmas: frame properties of the state operations -/

theorem gsi_true_snd (db : DB) (u : Nat) (a : Str) (t : Nat) :
    (get_session_id db u a t true).2 = db := rfl

theorem gsi_some (db : DB) (u : Nat) (a : Str) (t : Nat) (s : SessionRow)
    (h : lookupActive db u a = some s) :
    get_session_id db u a t =
      (s.session_id,
       { db with sessions := db.sessions.map (refreshActivity s.session_id t) }) := by
  unfold get_session_id
  rw [if_neg (by simp)]
  rw [h]

theorem gsi_fresh (db : DB) (u : Nat) (a : Str) (t : Nat)
    (h : lookupActive db u a = none)
    (hdup : ¬ (db.sessions.any fun s =>
      decide (s.session_id = mkSessionId a u t)) = true) :
    get_session_id db u a t =
      (mkSessionId a u t,
       { db with sessions := db.sessions ++ [newSessionRow u a t] }) := by
  unfold get_session_id
  rw [if_neg (by simp)]
  rw [h]
  exact if_neg hdup

theorem gsi_dup (db : DB) (u : Nat) (a : Str) (t : Nat)
    (h : lookupActive db u a = none)
    (hdup : (db.sessions.any fun s =>
      decide (s.session_id = mkSessionId a u t)) = true) :
    get_session_id db u a t = (fallbackSessionId a u, db) := by
  unfold get_session_id
  rw [if_neg (by simp)]
  rw [h]
  exact if_pos hdup

theorem gsi_conversations (db : DB) (u : Nat) (a : Str) (t : Nat) :
    ((get_session_id db u a t).2).conversations = db.conversations := by
  cases h : lookupActive db u a with
  | some s => rw [gsi_some db u a t s h]
  | none =>
    by_cases hdup : (db.sessions.any fun s =>
        decide (s.session_id = mkSessionId a u t)) = true
    · rw [gsi_dup db u a t h hdup]
    · rw [gsi_fresh db u a t h hdup]

theorem gsi_updated_plans (db : DB) (u : Nat) (a : Str) (t : Nat) :
    ((get_session_id db u a t).2).updated_plans = db.updated_plans := by
  cases h : lookupActive db u a with
  | some s => rw [gsi_some db u a t s h]
  | none =>
    by_cases hdup : (db.sessions.any fun s =>
        decide (s.session_id = mkSessionId a u t)) = true
    · rw [gsi_dup db u a t h hdup]
    · rw [gsi_fresh db u a t h hdup]

theorem gsi_agent_history (db : DB) (u : Nat) (a : Str) (t : Nat) :
    ((get_session_id db u a t).2).agent_history = db.agent_history := by
  cases h : lookupActive db u a with
  | some s => rw [gsi_some db u a t s h]
  | none =>
    by_cases hdup : (db.sessions.any fun s =>
        decide (s.session_id = mkSessionId a u t)) = true
    · rw [gsi_dup db u a t h hdup]
    · rw [gsi_fresh db u a t h hdup]

theorem ctx_snd (db : DB) (u : Nat) (a : Str) (t : Nat) :
    (get_conversation_context db u a t).2 =
      (get_session_id ((get_session_id ((get_session_id db u a t).2) u a t).2)
        u a t).2 := rfl

theorem ctx_conversations (db : DB) (u : Nat) (a : Str) (t : Nat) :
    ((get_conversation_context db u a t).2).conversations = db.conversations := by
  rw [ctx_snd, gsi_conversations, gsi_conversations, gsi_conversations]

theorem ctx_updated_plans (db : DB) (u : Nat) (a : Str) (t : Nat) :
    ((get_conversation_context db u a t).2).updated_plans = db.updated_plans := by
  rw [ctx_snd, gsi_updated_plans, gsi_updated_plans, gsi_updated_plans]

theorem ctx_agent_history (db : DB) (u : Nat) (a : Str) (t : Nat) :
    ((get_conversation_context db u a t).2).agent_history = db.agent_history := by
  rw [ctx_snd, gsi_agent_history, gsi_agent_history, gsi_agent_history]

theorem ctx_session_id (db : DB) (u : Nat) (a : Str) (t : Nat) :
    ((get_conversation_context db u a t).1).session_id =
      (get_session_id db u a t).1 := rfl

theorem am_updated_plans (db : DB) (u : Nat) (a : Str) (h ai : Str)
    (cpu : Bool) (t : Nat) :
    ((add_message db u a h ai cpu t).2).updated_plans = db.updated_plans :=
  gsi_updated_plans db u a t

theorem am_agent_history (db : DB) (u : Nat) (a : Str) (h ai : Str)
    (cpu : Bool) (t : Nat) :
    ((add_message db u a h ai cpu t).2).agent_history = db.agent_history :=
  gsi_agent_history db u a t

theorem clear_session_updated_plans (db : DB) (u : Nat) (a : Str) (t : Nat) :
    ((clear_session db u a t).2).updated_plans = db.updated_plans :=
  gsi_updated_plans db u a t

theorem clear_session_agent_history (db : DB) (u : Nat) (a : Str) (t : Nat) :
    ((clear_session db u a t).2).agent_history = db.agent_history :=
  gsi_agent_history db u a t

theorem cc_updated_plans (db : DB) (u : Nat) (a : Str) (t : Nat) :
    ((clear_conversation db u a t).2).updated_plans =
      db.updated_plans.map (unsetCurrent u a) := by
  have h : ((clear_conversation db u a t).2).updated_plans
      = (((clear_session db u a t).2).updated_plans).map (unsetCurrent u a) := rfl
  rw [h, clear_session_updated_plans]

theorem cc_agent_history (db : DB) (u : Nat) (a : Str) (t : Nat) :
    ((clear_conversation db u a t).2).agent_history = db.agent_history :=
  gsi_agent_history db u a t

theorem cc_conversations (db : DB) (u : Nat) (a : Str) (t : Nat) :
    ((clear_conversation db u a t).2).conversations =
      db.conversations.filter
        (fun c => !decide (c.session_id = (get_session_id db u a t).1)) := by
  have h : ((clear_conversation db u a t).2).conversations
      = (((get_session_id db u a t).2).conversations).filter
          (fun c => !decide (c.session_id = (get_session_id db u a t).1)) := rfl
  rw [h, gsi_conversations]

theorem cc_sessions (db : DB) (u : Nat) (a : Str) (t : Nat) :
    ((clear_conversation db u a t).2).sessions =
      (((get_session_id db u a t).2).sessions).map
        (markCleared (get_session_id db u a t).1) := rfl

/-! ### Helper lemmas: the plan version store -/

theorem unsetCurrent_planFor (u : Nat) (a : Str) (p : PlanRow) :
    planFor u a (unsetCurrent u a p) = planFor u a p := by
  unfold unsetCurrent
  split <;> rfl

theorem unsetCurrent_version (u : Nat) (a : Str) (p : PlanRow) :
    (unsetCurrent u a p).version_number = p.version_number := by
  unfold unsetCurrent
  split <;> rfl

theorem currents_map_unsetCurrent (l : List PlanRow) (u : Nat) (a : Str) :
    (l.map (unsetCurrent u a)).filter (fun p => planFor u a p && p.is_current)
      = [] := by
  rw [List.filter_eq_nil_iff]
  intro p hp
  rcases List.mem_map.mp hp with ⟨q, _, rfl⟩
  unfold unsetCurrent
  by_cases h : planFor u a q = true
  · simp [h]
  · simp [h, unsetCurrent_planFor]

theorem filter_planFor_map_unset (l : List PlanRow) (u : Nat) (a : Str) :
    (l.map (unsetCurrent u a)).filter (planFor u a)
      = (l.filter (planFor u a)).map (unsetCurrent u a) := by
  rw [List.filter_map]
  congr 1
  apply List.filter_congr
  intro p _
  rw [Function.comp_apply, unsetCurrent_planFor]

theorem foldl_max_version_map_unset (l : List PlanRow) (u : Nat) (a : Str) :
    ∀ b : Nat,
      List.foldl (fun m p => Nat.max m p.version_number) b
          (l.map (unsetCurrent u a))
        = List.foldl (fun m p => Nat.max m p.version_number) b l := by
  induction l with
  | nil => intro b; rfl
  | cons q l ih =>
    intro b
    simp only [List.map_cons, List.foldl_cons, unsetCurrent_version]
    exact ih _

theorem maxVersionFor_map_unset (l : List PlanRow) (u : Nat) (a : Str) :
    maxVersionFor (l.map (unsetCurrent u a)) u a = maxVersionFor l u a := by
  unfold maxVersionFor
  rw [filter_planFor_map_unset, foldl_max_version_map_unset]

theorem maxVersionFor_eq_foldl (l : List PlanRow) (u : Nat) (a : Str) :
    maxVersionFor l u a
      = List.foldl Nat.max 0 ((l.filter (planFor u a)).map fun p => p.version_number) := by
  unfold maxVersionFor
  rw [List.foldl_map]

theorem foldl_max_range_one (n : Nat) :
    List.foldl Nat.max 0 (List.range' 1 n) = n := by
  induction n with
  | zero => rfl
  | succ n ih =>
    rw [List.range'_concat, List.foldl_append, ih]
    simp
    omega

theorem range_one_concat (n : Nat) :
    List.range' 1 n ++ [n + 1] = List.range' 1 (n + 1) := by
  rw [List.range'_concat]
  have h : 1 + 1 * n = n + 1 := by omega
  rw [h]

theorem save_updated_plans_eq (db : DB) (u : Nat) (a : Str) (pl s : Str)
    (cid : Option Nat) (t : Nat) :
    ((save_updated_plan_with_versioning db u a pl s cid t).2).updated_plans
      = db.updated_plans.map (unsetCurrent u a) ++
        [{ user_id := u, agent_type := a,
           original_plan_id := latestHistoryId db u a, updated_plan := pl,
           modification_summary := s, conversation_id := cid,
           version_number := maxVersionFor db.updated_plans u a + 1,
           is_current := true, created_at := t }] := by
  unfold save_updated_plan_with_versioning
  simp only [maxVersionFor_map_unset]

theorem planFor_self (u : Nat) (a : Str) (p : PlanRow)
    (h1 : p.user_id = u) (h2 : p.agent_type = a) : planFor u a p = true := by
  unfold planFor
  simp [h1, h2]

theorem currents_save_length (db : DB) (u : Nat) (a : Str) (pl s : Str)
    (cid : Option Nat) (t : Nat) :
    (currentPlansFor ((save_updated_plan_with_versioning db u a pl s cid t).2)
      u a).length = 1 := by
  unfold currentPlansFor
  rw [save_updated_plans_eq, List.filter_append, currents_map_unsetCurrent]
  simp [planFor]

theorem currents_clear_length (db : DB) (u : Nat) (a : Str) (t : Nat) :
    (currentPlansFor ((clear_conversation db u a t).2) u a).length = 0 := by
  unfold currentPlansFor
  rw [cc_updated_plans, currents_map_unsetCurrent]
  rfl

/-! ### Claims C1 to C4 -/

/-- C1: for every user message, assistant response and assembled context,
`detect_plan_update_advanced` returns true exactly when (the user message
contains an update-request keyword AND the response contains a plan-marker
keyword AND the response length exceeds 800 characters AND the response
contains a structural marker) OR (the text of the last few recent context
messages contains an update-request keyword AND the response contains a
plan-marker keyword AND the response length exceeds 800 characters). -/
theorem C1_detector_decision_rule (u r : Str) (ms : List RecentMsg) :
    detect_plan_update_advanced u r ms =
      ((userWantsUpdate u && responseHasPlanMarkers r && isSubstantialResp r
          && hasStructureMarker r)
        || (recentContextAboutPlans ms && responseHasPlanMarkers r
          && isSubstantialResp r)) :=
  detect_eq_rule u r ms

set_option maxRecDepth 4000 in
/-- C2 counterexample: after one completed `saveRevision` followed by one
`clearConversation`, the pair (1, FitnessTrainer) has one stored plan
version but zero rows with `is_current = true`, refuting "exactly one". -/
theorem C2_counterexample :
    (versionsFor
        (applyPlanOps 1 fitnessAgent emptyDB
          [PlanOp.save samplePlan sampleSummary none 1, PlanOp.clear 2])
        1 fitnessAgent).length = 1
    ∧ (currentPlansFor
        (applyPlanOps 1 fitnessAgent emptyDB
          [PlanOp.save samplePlan sampleSummary none 1, PlanOp.clear 2])
        1 fitnessAgent).length = 0 := by decide

/-- C2 amended: after any nonempty sequence of completed saveRevision /
clearConversation operations for a pair, at most one stored plan version is
current: exactly one when the last operation was a saveRevision, and zero
when it was a clearConversation (which unsets every current flag). -/
theorem C2_amended_current_flags (db : DB) (u : Nat) (a : Str)
    (ops : List PlanOp) (op : PlanOp) :
    (currentPlansFor (applyPlanOps u a db (ops ++ [op])) u a).length =
      (match op with
        | PlanOp.save _ _ _ _ => 1
        | PlanOp.clear _ => 0) := by
  unfold applyPlanOps
  rw [List.foldl_append]
  cases op with
  | save pl s cid t =>
      simp only [List.foldl_cons, List.foldl_nil]
      exact currents_save_length _ u a pl s cid t
  | clear t =>
      simp only [List.foldl_cons, List.foldl_nil]
      exact currents_clear_length _ u a t

/-- C4: `save_updated_plan_with_versioning` marks every existing version of
the pair not-current and appends the new version as current with version
number previous-max + 1 (1 when no version exists, since the max of none is
0); when the stored versions are the gapless 1..n, they become 1..n+1. -/
theorem C4_save_versioning (db : DB) (u : Nat) (a : Str) (pl s : Str)
    (cid : Option Nat) (t : Nat) :
    (((save_updated_plan_with_versioning db u a pl s cid t).2).updated_plans
        = db.updated_plans.map (unsetCurrent u a) ++
          [{ user_id := u, agent_type := a,
             original_plan_id := latestHistoryId db u a, updated_plan := pl,
             modification_summary := s, conversation_id := cid,
             version_number := maxVersionFor db.updated_plans u a + 1,
             is_current := true, created_at := t }])
    ∧ (currentPlansFor ((save_updated_plan_with_versioning db u a pl s cid t).2)
        u a).length = 1
    ∧ ∀ n, versionsFor db u a = List.range' 1 n →
        versionsFor ((save_updated_plan_with_versioning db u a pl s cid t).2)
          u a = List.range' 1 (n + 1) := by
  refine ⟨save_updated_plans_eq db u a pl s cid t,
    currents_save_length db u a pl s cid t, ?_⟩
  intro n hn
  have hmax : maxVersionFor db.updated_plans u a = n := by
    rw [maxVersionFor_eq_foldl]
    unfold versionsFor at hn
    rw [hn, foldl_max_range_one]
  unfold versionsFor
  rw [save_updated_plans_eq, List.filter_append, List.map_append,
    filter_planFor_map_unset, List.map_map]
  have h1 : (db.updated_plans.filter (planFor u a)).map
      ((fun p => p.version_number) ∘ unsetCurrent u a)
      = versionsFor db u a := by
    unfold versionsFor
    apply List.map_congr_left
    intro p _
    rw [Function.comp_apply, unsetCurrent_version]
  rw [h1, hn, hmax]
  have h2 : List.filter (planFor u a)
      [({ user_id := u, agent_type := a,
          original_plan_id := latestHistoryId db u a, updated_plan := pl,
          modification_summary := s, conversation_id := cid,
          version_number := n + 1,
          is_current := true, created_at := t } : PlanRow)]
      = [{ user_id := u, agent_type := a,
           original_plan_id := latestHistoryId db u a, updated_plan := pl,
           modification_summary := s, conversation_id := cid,
           version_number := n + 1,
           is_current := true, created_at := t }] := by
    simp [planFor]
  rw [h2]
  simp only [List.map_cons, List.map_nil]
  exact range_one_concat n

/-- C4 witness: saving into the empty store yields the version list
1..1 (gapless, starting at 1). -/
theorem C4_save_versioning_witness :
    versionsFor
        ((save_updated_plan_with_versioning emptyDB 1 fitnessAgent samplePlan
          sampleSummary none 5).2) 1 fitnessAgent = List.range' 1 (0 + 1) :=
  (C4_save_versioning emptyDB 1 fitnessAgent samplePlan sampleSummary
    none 5).2.2 0 (by decide)

/-! ### Claim C3 -/

set_option maxRecDepth 40000 in
/-- C3 counterexample: the user message "How's the weather today?" contains
no update-request keyword, yet the detector returns true for a substantial
plan-marked response when a recent context message contains one ("please
change my plan"): the detector's second disjunct ignores the user message. -/
theorem C3_counterexample :
    userWantsUpdate weatherMsg = false
    ∧ detect_plan_update_advanced weatherMsg bigPlanResponse changeContext
        = true := by
  decide

set_option maxHeartbeats 1600000 in
/-- C3 amended: for every user message containing no update-request keyword,
when additionally the recent-context text contains no update-request
keyword, the detector returns false for every assistant response, and
`generate_response` creates no new plan version for that turn. -/
theorem C3_amended_no_update_keywords (db : DB) (u : Nat) (a : Str)
    (msg : Str) (t : Nat) (content r : Str)
    (hu : userWantsUpdate msg = false)
    (hc : recentContextAboutPlans
        ((get_conversation_context db u a t).1).recent_messages = false) :
    detect_plan_update_advanced msg r
        ((get_conversation_context db u a t).1).recent_messages = false
    ∧ ((generate_response db u a msg (some content) t).2).updated_plans
        = db.updated_plans := by
  have hdet : ∀ rr : Str, detect_plan_update_advanced msg rr
      ((get_conversation_context db u a t).1).recent_messages = false := by
    intro rr
    rw [detect_eq_rule, hu, hc]
    simp
  refine ⟨hdet r, ?_⟩
  unfold generate_response
  split
  · rfl
  split
  · split
    next => rw [ctx_updated_plans, ctx_updated_plans]
    next content' heq =>
      split
      · rw [ctx_updated_plans, ctx_updated_plans]
      · dsimp only
        rw [hdet (stripStr content')]
        simp only [Bool.false_eq_true, if_false]
        rw [am_updated_plans, ctx_updated_plans, ctx_updated_plans]
  · rfl

/-- C3 witness: on the empty database the recent context is empty, so for
the weather message the detector is false and no plan version appears. -/
theorem C3_amended_witness :
    detect_plan_update_advanced weatherMsg "ok".data
        ((get_conversation_context emptyDB 1 fitnessAgent 5).1).recent_messages
        = false
    ∧ ((generate_response emptyDB 1 fitnessAgent weatherMsg
        (some "ok".data) 5).2).updated_plans = emptyDB.updated_plans :=
  C3_amended_no_update_keywords emptyDB 1 fitnessAgent weatherMsg 5
    "ok".data "ok".data (by decide) (by decide)

/-! ### Claim C5 -/

/-- C5: `get_current_plan_context` returns the plan version marked current
when one exists; otherwise, when a base plan exists, the latest base plan
with `is_updated = false` and version 1; otherwise the explicit
no-plan-yet result, never an error. -/
theorem C5_get_current_plan (db : DB) (u : Nat) (a : Str) :
    (∀ p, selectLatestBy (fun q => q.created_at) (currentPlansFor db u a)
        = some p →
      get_current_plan_context db u a =
        { current_plan := some p.updated_plan, is_updated := true,
          last_modification := some p.modification_summary,
          version := some p.version_number, timestamp := some p.created_at,
          message := none })
    ∧ (selectLatestBy (fun q => q.created_at) (currentPlansFor db u a)
        = none →
      (∀ h, selectLatestBy (fun q => q.created_at) (baseFor db u a) = some h →
        get_current_plan_context db u a =
          { current_plan := some h.recommendation, is_updated := false,
            last_modification := none, version := some 1,
            timestamp := some h.created_at, message := none })
      ∧ (selectLatestBy (fun q => q.created_at) (baseFor db u a) = none →
        get_current_plan_context db u a =
          { current_plan := none, is_updated := false,
            last_modification := none, version := none, timestamp := none,
            message := some noPlanMessage })) := by
  refine ⟨fun p hp => ?_, fun hn => ⟨fun h hh => ?_, fun hn2 => ?_⟩⟩
  · unfold get_current_plan_context
    simp only [hp]
  · unfold get_current_plan_context
    simp only [hn, hh]
  · unfold get_current_plan_context
    simp only [hn, hn2]

/-- C5 witness: on the empty database neither a current version nor a base
plan exists, and the no-plan-yet result is returned. -/
theorem C5_get_current_plan_witness :
    get_current_plan_context emptyDB 1 fitnessAgent =
      { current_plan := none, is_updated := false, last_modification := none,
        version := none, timestamp := none, message := some noPlanMessage } :=
  ((C5_get_current_plan emptyDB 1 fitnessAgent).2 (by decide)).2 (by decide)

/-! ### Claim C6 -/

set_option maxRecDepth 4000 in
/-- C6 counterexample: `get_session_id` masks failures by returning a
substitute id instead of propagating a storage error.  On an arbitrary
storage failure it returns `fallback_FitnessTrainer_1` with the state
unchanged; and on the concrete create-clear-create sequence within one
epoch second, the composed id collides with the stored (cleared) session's
`UNIQUE` id, the insert's `IntegrityError` is caught, and the same
substitute id is returned with nothing inserted. -/
theorem C6_counterexample :
    (get_session_id emptyDB 1 fitnessAgent 5 true
        = (fallbackSessionId fitnessAgent 1, emptyDB))
    ∧ (get_session_id ((clear_session
          ((get_session_id emptyDB 1 fitnessAgent 5).2)
          1 fitnessAgent 5).2) 1 fitnessAgent 5
        = (fallbackSessionId fitnessAgent 1,
           (clear_session ((get_session_id emptyDB 1 fitnessAgent 5).2)
             1 fitnessAgent 5).2)) := by
  decide

/-- C6 amended: `get_session_id` returns the id of the existing active
session and refreshes its last-activity timestamp when one exists;
otherwise it creates a new active session whose id is composed from role,
user and creation epoch, provided no stored session already carries that
id; when the composed id collides with a stored session's id (a second
creation within the same epoch second), the unique-constraint violation is
caught and the fallback id `fallback_{role}_{user}` is returned with no row
inserted; likewise any storage failure is masked by returning the fallback
id with no state change instead of being propagated as a storage error. -/
theorem C6_amended_session_registry (db : DB) (u : Nat) (a : Str) (t : Nat) :
    (∀ s, lookupActive db u a = some s →
        get_session_id db u a t =
          (s.session_id,
           { db with sessions := db.sessions.map (refreshActivity s.session_id t) }))
    ∧ (lookupActive db u a = none →
        ¬ (db.sessions.any fun s =>
            decide (s.session_id = mkSessionId a u t)) = true →
        get_session_id db u a t =
          (mkSessionId a u t,
           { db with sessions := db.sessions ++ [newSessionRow u a t] }))
    ∧ (lookupActive db u a = none →
        (db.sessions.any fun s =>
            decide (s.session_id = mkSessionId a u t)) = true →
        get_session_id db u a t = (fallbackSessionId a u, db))
    ∧ get_session_id db u a t true = (fallbackSessionId a u, db) :=
  ⟨fun s hs => gsi_some db u a t s hs,
   fun hn hdup => gsi_fresh db u a t hn hdup,
   fun hn hdup => gsi_dup db u a t hn hdup, rfl⟩

set_option maxRecDepth 4000 in
/-- C6 witness: with one active session present, `get_session_id` returns
its id and refreshes its activity timestamp. -/
theorem C6_amended_witness :
    get_session_id ((get_session_id emptyDB 1 fitnessAgent 5).2) 1
        fitnessAgent 7
      = ((newSessionRow 1 fitnessAgent 5).session_id,
         { (get_session_id emptyDB 1 fitnessAgent 5).2 with
            sessions := (((get_session_id emptyDB 1 fitnessAgent 5).2).sessions).map
              (refreshActivity (newSessionRow 1 fitnessAgent 5).session_id 7) }) :=
  (C6_amended_session_registry ((get_session_id emptyDB 1 fitnessAgent 5).2)
    1 fitnessAgent 7).1 (newSessionRow 1 fitnessAgent 5) (by decide)

/-! ### Claim C7 -/

theorem maxOrderFor_eq_foldl (l : List ConvRow) (sid : Str) :
    maxOrderFor l sid = List.foldl Nat.max 0 (ordersFor l sid) := by
  unfold maxOrderFor ordersFor
  rw [List.foldl_map]

/-- C7: a successful `add_message` call appends the human turn at
previous-max + 1 and the assistant turn at previous-max + 2: when the
session's stored order numbers are the gapless sequence 1..n, they become
the gapless sequence 1..n+2. -/
theorem C7_turn_orders (db : DB) (u : Nat) (a : Str) (hm ai : Str)
    (cpu : Bool) (t : Nat) (n : Nat)
    (hg : ordersFor db.conversations (get_session_id db u a t).1
      = List.range' 1 n) :
    ordersFor (((add_message db u a hm ai cpu t).2).conversations)
        (get_session_id db u a t).1 = List.range' 1 (n + 2) := by
  have hmax : maxOrderFor db.conversations (get_session_id db u a t).1 = n := by
    rw [maxOrderFor_eq_foldl, hg, foldl_max_range_one]
  unfold add_message extract_context_references
  dsimp only
  rw [gsi_conversations]
  unfold ordersFor
  rw [List.filter_append, List.map_append]
  unfold ordersFor at hg
  rw [hg, hmax]
  simp only [List.filter_cons, List.filter_nil, decide_eq_true_eq,
    eq_self_iff_true, if_true]
  simp only [List.map_cons, List.map_nil]
  rw [← range_one_concat (n + 1), ← range_one_concat n, List.append_assoc]
  rfl

/-- C7 witness: adding the first exchange to a fresh session stores order
numbers 1 and 2. -/
theorem C7_turn_orders_witness :
    ordersFor (((add_message emptyDB 1 fitnessAgent "hi".data "hello".data
        false 5).2).conversations)
        (get_session_id emptyDB 1 fitnessAgent 5).1 = List.range' 1 (0 + 2) :=
  C7_turn_orders emptyDB 1 fitnessAgent "hi".data "hello".data false 5 0
    (by decide)

/-! ### Claim C8 -/

/-- C8: when the language-model call fails (`none`) or returns an empty
response (`some []`), `generate_response` returns a failure result and
persists no turn and no plan state: the `conversations` and
`updated_plans` tables are unchanged (`add_message` and
`save_updated_plan_with_versioning` are never reached). -/
theorem C8_llm_failure_no_persistence (db : DB) (u : Nat) (a : Str)
    (msg : Str) (t : Nat) :
    ((generate_response db u a msg none t).1.isErr = true
      ∧ ((generate_response db u a msg none t).2).conversations
          = db.conversations
      ∧ ((generate_response db u a msg none t).2).updated_plans
          = db.updated_plans)
    ∧ ((generate_response db u a msg (some []) t).1.isErr = true
      ∧ ((generate_response db u a msg (some []) t).2).conversations
          = db.conversations
      ∧ ((generate_response db u a msg (some []) t).2).updated_plans
          = db.updated_plans) := by
  refine ⟨⟨?_, ?_, ?_⟩, ⟨?_, ?_, ?_⟩⟩
  · unfold generate_response
    split
    · rfl
    split
    · dsimp only
      rfl
    · rfl
  · unfold generate_response
    split
    · rfl
    split
    · dsimp only
      rw [ctx_conversations, ctx_conversations]
    · rfl
  · unfold generate_response
    split
    · rfl
    split
    · dsimp only
      rw [ctx_updated_plans, ctx_updated_plans]
    · rfl
  · unfold generate_response
    split
    · rfl
    split
    · dsimp only
      rw [if_pos rfl]
      rfl
    · rfl
  · unfold generate_response
    split
    · rfl
    split
    · dsimp only
      rw [if_pos rfl]
      rw [ctx_conversations, ctx_conversations]
    · rfl
  · unfold generate_response
    split
    · rfl
    split
    · dsimp only
      rw [if_pos rfl]
      rw [ctx_updated_plans, ctx_updated_plans]
    · rfl

/-! ### Claim C9 -/

theorem selectLatestBy_none {f : α → Nat} {l : List α}
    (h : selectLatestBy f l = none) : l = [] := by
  cases l with
  | nil => rfl
  | cons x xs =>
    exfalso
    rw [selectLatestBy] at h
    cases hy : selectLatestBy f xs with
    | none => simp only [hy] at h; exact Option.noConfusion h
    | some z =>
      simp only [hy] at h
      by_cases hc : f z < f x
      · rw [if_pos hc] at h; exact Option.noConfusion h
      · rw [if_neg hc] at h; exact Option.noConfusion h

theorem isActiveFor_status_cleared (u : Nat) (a : Str) (s : SessionRow)
    (h : s.status = statusCleared) : ¬ isActiveFor u a s = true := by
  unfold isActiveFor
  rw [h]
  simp only [decide_eq_true_eq]
  rintro ⟨-, -, hc⟩
  exact absurd hc (by decide)

/-- After `clear_conversation` the pair has no active session (given the
reachable-state invariant of at most one active session per pair). -/
theorem cc_no_active (db : DB) (u : Nat) (a : Str) (t : Nat)
    (hA : (activeSessionsFor db u a).length ≤ 1) :
    activeSessionsFor ((clear_conversation db u a t).2) u a = [] := by
  unfold activeSessionsFor
  rw [cc_sessions, List.filter_eq_nil_iff]
  intro s hs
  rcases List.mem_map.mp hs with ⟨y, hy, rfl⟩
  cases hl : lookupActive db u a with
  | some s0 =>
    have hgsi := gsi_some db u a t s0 hl
    rw [hgsi] at hy ⊢
    rcases List.mem_map.mp hy with ⟨x, hx, rfl⟩
    by_cases hxs : x.session_id = s0.session_id
    · unfold refreshActivity markCleared
      rw [if_pos hxs, if_pos hxs]
      exact isActiveFor_status_cleared u a _ rfl
    · unfold refreshActivity markCleared
      rw [if_neg hxs, if_neg hxs]
      intro hact
      have hx' : x ∈ activeSessionsFor db u a :=
        List.mem_filter.mpr ⟨hx, hact⟩
      have hs0 : s0 ∈ activeSessionsFor db u a := selectLatestBy_mem hl
      exact hxs (by rw [eq_of_mem_of_length_le_one hA hx' hs0])
  | none =>
    have hnil : activeSessionsFor db u a = [] := selectLatestBy_none hl
    by_cases hdup : (db.sessions.any fun s =>
        decide (s.session_id = mkSessionId a u t)) = true
    · have hgsi := gsi_dup db u a t hl hdup
      rw [hgsi] at hy ⊢
      dsimp only at hy ⊢
      by_cases hxs : y.session_id = fallbackSessionId a u
      · unfold markCleared
        rw [if_pos hxs]
        exact isActiveFor_status_cleared u a _ rfl
      · unfold markCleared
        rw [if_neg hxs]
        intro hact
        have hx' : y ∈ activeSessionsFor db u a :=
          List.mem_filter.mpr ⟨hy, hact⟩
        rw [hnil] at hx'
        exact List.not_mem_nil _ hx'
    · have hgsi := gsi_fresh db u a t hl hdup
      rw [hgsi] at hy ⊢
      dsimp only at hy ⊢
      rcases List.mem_append.mp hy with hx | hx
      · by_cases hxs : y.session_id = mkSessionId a u t
        · unfold markCleared
          rw [if_pos hxs]
          exact isActiveFor_status_cleared u a _ rfl
        · unfold markCleared
          rw [if_neg hxs]
          intro hact
          have hx' : y ∈ activeSessionsFor db u a :=
            List.mem_filter.mpr ⟨hx, hact⟩
          rw [hnil] at hx'
          exact List.not_mem_nil _ hx'
      · rw [List.mem_singleton.mp hx]
        unfold markCleared
        rw [if_pos (show (newSessionRow u a t).session_id
          = mkSessionId a u t from rfl)]
        exact isActiveFor_status_cleared u a _ rfl

/-- When the observed session id has no stored conversation rows,
`get_conversation_history` returns the empty list. -/
theorem history_empty_of_sid (db : DB) (u : Nat) (a : Str) (lim t : Nat)
    (S : Str)
    (hsid : ((get_conversation_context db u a t).1).session_id = S)
    (hfil : db.conversations.filter
      (fun c => decide (c.session_id = S)) = []) :
    (get_conversation_history db u a lim t).1 = [] := by
  show pairLoop (recentWindow (get_conversation_context db u a t).2
      ((get_conversation_context db u a t).1).session_id lim) none = []
  rw [hsid]
  unfold recentWindow
  rw [ctx_conversations, hfil]
  simp [sortByOrder, lastN, List.drop_nil, pairLoop]

/-- With no active session and no stale rows under the fresh session id or
the pair's fallback id, `get_conversation_history` returns the empty list
(the look-up either creates a fresh session or, on an id collision with a
stored cleared session, falls back to the fallback id). -/
theorem history_empty (db : DB) (u : Nat) (a : Str) (lim t : Nat)
    (hact : activeSessionsFor db u a = [])
    (hno : ∀ c ∈ db.conversations, ¬ c.session_id = mkSessionId a u t)
    (hnofb : ∀ c ∈ db.conversations, ¬ c.session_id = fallbackSessionId a u) :
    (get_conversation_history db u a lim t).1 = [] := by
  have hlk : lookupActive db u a = none := by
    unfold lookupActive
    rw [hact]
    rfl
  by_cases hdup : (db.sessions.any fun s =>
      decide (s.session_id = mkSessionId a u t)) = true
  · refine history_empty_of_sid db u a lim t (fallbackSessionId a u) ?_ ?_
    · rw [ctx_session_id, gsi_dup db u a t hlk hdup]
    · rw [List.filter_eq_nil_iff]
      intro c hc
      simpa using hnofb c hc
  · refine history_empty_of_sid db u a lim t (mkSessionId a u t) ?_ ?_
    · rw [ctx_session_id, gsi_fresh db u a t hlk hdup]
    · rw [List.filter_eq_nil_iff]
      intro c hc
      simpa using hno c hc

/-- `get_current_plan_context` observes the same result after two clears as
after one: no current version remains either way, and the base-plan table
is untouched. -/
theorem cc_plan_context (db : DB) (u : Nat) (a : Str) (t1 t2 : Nat) :
    get_current_plan_context
        ((clear_conversation ((clear_conversation db u a t1).2) u a t2).2) u a
      = get_current_plan_context ((clear_conversation db u a t1).2) u a := by
  have h1 : currentPlansFor ((clear_conversation db u a t1).2) u a = [] := by
    unfold currentPlansFor
    rw [cc_updated_plans]
    exact currents_map_unsetCurrent _ u a
  have h2 : currentPlansFor
      ((clear_conversation ((clear_conversation db u a t1).2) u a t2).2) u a
      = [] := by
    unfold currentPlansFor
    rw [cc_updated_plans]
    exact currents_map_unsetCurrent _ u a
  unfold get_current_plan_context
  rw [h1, h2]
  have hb : baseFor
      ((clear_conversation ((clear_conversation db u a t1).2) u a t2).2) u a
      = baseFor ((clear_conversation db u a t1).2) u a := by
    unfold baseFor
    simp only [cc_agent_history]
  rw [hb]

/-- C9: from a quiescent reachable state (at most one active session for
the pair, and no stale conversation rows under the fresh observation-time
session id or under the pair's fallback id), clearing twice leaves the
same externally observable state as clearing once: `getHistory` returns
the empty list after one clear and after two, `getCurrentPlan` returns the
same (base-plan) result, and no plan version stays current. -/
theorem C9_clear_idempotent (db : DB) (u : Nat) (a : Str)
    (t1 t2 t3 lim : Nat)
    (hA : (activeSessionsFor db u a).length ≤ 1)
    (hno : ∀ c ∈ db.conversations, ¬ c.session_id = mkSessionId a u t3)
    (hnofb : ∀ c ∈ db.conversations,
      ¬ c.session_id = fallbackSessionId a u) :
    (get_conversation_history ((clear_conversation db u a t1).2) u a lim
        t3).1 = []
    ∧ (get_conversation_history
        ((clear_conversation ((clear_conversation db u a t1).2) u a t2).2)
        u a lim t3).1 = []
    ∧ get_current_plan_context
        ((clear_conversation ((clear_conversation db u a t1).2) u a t2).2) u a
      = get_current_plan_context ((clear_conversation db u a t1).2) u a
    ∧ (currentPlansFor ((clear_conversation db u a t1).2) u a).length = 0 := by
  have hact1 : activeSessionsFor ((clear_conversation db u a t1).2) u a = [] :=
    cc_no_active db u a t1 hA
  have hA1 : (activeSessionsFor ((clear_conversation db u a t1).2) u a).length
      ≤ 1 := by
    rw [hact1]
    simp
  have hact2 : activeSessionsFor
      ((clear_conversation ((clear_conversation db u a t1).2) u a t2).2) u a
      = [] := cc_no_active _ u a t2 hA1
  have hsub1 : ∀ c ∈ ((clear_conversation db u a t1).2).conversations,
      ¬ c.session_id = mkSessionId a u t3 := by
    intro c hc
    rw [cc_conversations] at hc
    exact hno c (List.mem_filter.mp hc).1
  have hsub2 : ∀ c ∈ ((clear_conversation ((clear_conversation db u a t1).2)
      u a t2).2).conversations, ¬ c.session_id = mkSessionId a u t3 := by
    intro c hc
    rw [cc_conversations] at hc
    exact hsub1 c (List.mem_filter.mp hc).1
  have hsubf1 : ∀ c ∈ ((clear_conversation db u a t1).2).conversations,
      ¬ c.session_id = fallbackSessionId a u := by
    intro c hc
    rw [cc_conversations] at hc
    exact hnofb c (List.mem_filter.mp hc).1
  have hsubf2 : ∀ c ∈ ((clear_conversation ((clear_conversation db u a t1).2)
      u a t2).2).conversations, ¬ c.session_id = fallbackSessionId a u := by
    intro c hc
    rw [cc_conversations] at hc
    exact hsubf1 c (List.mem_filter.mp hc).1
  exact ⟨history_empty _ u a lim t3 hact1 hsub1 hsubf1,
    history_empty _ u a lim t3 hact2 hsub2 hsubf2,
    cc_plan_context db u a t1 t2,
    currents_clear_length db u a t1⟩

set_option maxRecDepth 8000 in
/-- C9 witness: on the sample state (one active session with one exchange,
one current plan revision, one base plan) clearing at times 20 and 21 and
observing at time 30 shows both histories empty, equal plan results, and
no current version. -/
theorem C9_clear_idempotent_witness :
    (get_conversation_history ((clear_conversation sampleDB 1 fitnessAgent
        20).2) 1 fitnessAgent 20 30).1 = []
    ∧ (get_conversation_history
        ((clear_conversation ((clear_conversation sampleDB 1 fitnessAgent
          20).2) 1 fitnessAgent 21).2) 1 fitnessAgent 20 30).1 = []
    ∧ get_current_plan_context
        ((clear_conversation ((clear_conversation sampleDB 1 fitnessAgent
          20).2) 1 fitnessAgent 21).2) 1 fitnessAgent
      = get_current_plan_context ((clear_conversation sampleDB 1 fitnessAgent
          20).2) 1 fitnessAgent
    ∧ (currentPlansFor ((clear_conversation sampleDB 1 fitnessAgent 20).2) 1
        fitnessAgent).length = 0 :=
  C9_clear_idempotent sampleDB 1 fitnessAgent 20 21 30 20 (by decide)
    (by decide) (by decide)

/-! ### Claim C10 -/

/-- C10: `get_conversation_history` returns only completed exchange pairs.
Its result is the pairing loop over the retrieved chronological window;
the loop pairs each human turn with the assistant turn that follows it
(on a window of complete exchanges it returns exactly those pairs), a
trailing human turn with no subsequent assistant turn in the window is
silently omitted, and an assistant turn with no preceding human turn in
the window (one cut off by the limit) is silently skipped. -/
theorem C10_history_pairing :
    (∀ db : DB, ∀ u : Nat, ∀ a : Str, ∀ lim t : Nat,
        (get_conversation_history db u a lim t).1
          = pairLoop (recentWindow (get_conversation_context db u a t).2
              ((get_conversation_context db u a t).1).session_id lim) none)
    ∧ (∀ rows : List ConvRow, ∀ r : ConvRow,
        ∀ cur : Option (Str × Nat), r.message_type = "human".data →
        pairLoop (rows ++ [r]) cur = pairLoop rows cur)
    ∧ (∀ rows : List ConvRow, ∀ r : ConvRow,
        r.message_type = "assistant".data →
        pairLoop (r :: rows) none = pairLoop rows none)
    ∧ (∀ ps : List (ConvRow × ConvRow),
        (∀ pr ∈ ps, pr.1.message_type = "human".data
          ∧ pr.2.message_type = "assistant".data) →
        pairLoop (interleavePairs ps) none
          = ps.map fun pr =>
              { human := pr.1.content, ai := pr.2.content,
                isUpdate := pr.2.contains_plan_update,
                timestamp := pr.1.timestamp }) := by
  refine ⟨fun db u a lim t => rfl, ?_, ?_, ?_⟩
  · intro rows r cur hr
    induction rows generalizing cur with
    | nil =>
      rw [List.nil_append]
      simp only [pairLoop]
      rw [if_pos hr]
    | cons x rows ih =>
      simp only [List.cons_append, pairLoop]
      by_cases hx : x.message_type = "human".data
      · rw [if_pos hx, if_pos hx]
        exact ih _
      · by_cases hx2 : x.message_type = "assistant".data
        · rw [if_neg hx, if_neg hx, if_pos hx2, if_pos hx2]
          cases cur with
          | none =>
            dsimp only
            exact ih none
          | some pending =>
            dsimp only
            exact congrArg (fun l => _ :: l) (ih none)
        · rw [if_neg hx, if_neg hx, if_neg hx2, if_neg hx2]
          exact ih _
  · intro rows r hr
    rw [pairLoop,
      if_neg (fun hcon => by rw [hr] at hcon; exact absurd hcon (by decide)),
      if_pos hr]
  · intro ps hps
    induction ps with
    | nil => rfl
    | cons pr rest ih =>
      have h1 := (hps pr (List.mem_cons_self _ _)).1
      have h2 := (hps pr (List.mem_cons_self _ _)).2
      rw [interleavePairs, pairLoop, if_pos h1, pairLoop,
        if_neg (fun hcon => by rw [h2] at hcon; exact absurd hcon (by decide)),
        if_pos h2]
      dsimp only
      rw [ih (fun q hq => hps q (List.mem_cons_of_mem _ hq))]
      rfl

set_option maxRecDepth 4000 in
/-- C10 witness: one complete exchange pairs up into exactly one history
entry. -/
theorem C10_history_pairing_witness :
    pairLoop (interleavePairs [(wHumanRow, wAsstRow)]) none
      = [{ human := wHumanRow.content, ai := wAsstRow.content,
           isUpdate := wAsstRow.contains_plan_update,
           timestamp := wHumanRow.timestamp }] :=
  (C10_history_pairing).2.2.2 [(wHumanRow, wAsstRow)] (by decide)

end HealthAgent
